import Mathlib

/-!
Verification of the `qu` command-line tool (offline signing and submission of
calls to the Internet Computer) against its natural-language specification.

The development shallowly embeds the Rust sources:

* `src/lib/mod.rs` — `parse_query_response`, `get_local_candid`,
  `get_idl_string`, `get_candid_type`, `get_identity`, `send_ingress`;
* `src/commands/send.rs` — the artifact-shape dispatch in `exec`;
* `src/commands/transfer.rs` — `parse_icpts`.

External crates (serde_cbor, serde_json, candid, hex, ic-agent transports,
the two identity PEM loaders) are modelled as explicit parameters: the
embedding of a repository function takes the outcome of each external call
as an input, so every theorem quantifies over all possible behaviours of
those collaborators.  Machine strings crossing a byte boundary are modelled
as their UTF-8 byte lists (`List Nat`, each element < 256).
-/

deriving instance DecidableEq for Except

/-- UTF-8 encoding of a single character, as Rust's `str::as_bytes` /
`String::push` produce it (RFC 3629). -/
def utf8EncodeCharBytes (c : Char) : List Nat :=
  let n := c.toNat
  if n < 128 then [n]
  else if n < 2048 then
    [192 + n / 64, 128 + n % 64]
  else if n < 65536 then
    [224 + n / 4096, 128 + (n / 64) % 64, 128 + n % 64]
  else
    [240 + n / 262144, 128 + (n / 4096) % 64, 128 + (n / 64) % 64, 128 + n % 64]

/-- UTF-8 bytes of a string, i.e. Rust's `s.as_bytes().to_vec()`. -/
def utf8Bytes (s : String) : List Nat :=
  s.data.flatMap utf8EncodeCharBytes

/-- The `serde_cbor::Value` type, restricted to the constructors the
repository inspects.  `other` stands for every remaining constructor
(`Null`, `Bool`, `Float`, `Array`, `Tag`, ...), none of which matches any
pattern used by `parse_query_response`. -/
inductive CborValue where
  | integer : Int → CborValue
  | bytes : List Nat → CborValue
  | text : String → CborValue
  | map : List (CborValue × CborValue) → CborValue
  | other : CborValue

/-- `m.get(&Value::Text(s))` on the decoded `BTreeMap`: the value bound to
the text key `s` (serde_cbor maps have one binding per key; on the
association list we return the first). -/
def lookupText (m : List (CborValue × CborValue)) (s : String) : Option CborValue :=
  match m with
  | [] => none
  | (CborValue.text t, v) :: rest => if t = s then some v else lookupText rest s
  | _ :: rest => lookupText rest s

/-- The rejected-response pattern of `parse_query_response`
(src/lib/mod.rs:150-154): an `Integer` under `"reject_code"` together with a
`Text` under `"reject_message"` (the `"status"` entry is matched by `_`). -/
def rejectionOf (m : List (CborValue × CborValue)) : Option (Int × String) :=
  match lookupText m "reject_code", lookupText m "reject_message" with
  | some (CborValue.integer rc), some (CborValue.text rm) => some (rc, rm)
  | _, _ => none

/-- The successful-response pattern of `parse_query_response`
(src/lib/mod.rs:163-169): a `Map` under `"reply"` whose `"arg"` entry is a
`Bytes` value. -/
def replyOf (m : List (CborValue × CborValue)) : Option (List Nat) :=
  match lookupText m "reply" with
  | some (CborValue.map m2) =>
    match lookupText m2 "arg" with
    | some (CborValue.bytes reply) => some reply
    | _ => none
  | _ => none

/-- `parse_query_response` (src/lib/mod.rs:145-173).  Its first step,
`serde_cbor::from_slice`, is external; the function is embedded over that
call's outcome: `none` stands for a byte string that is not valid CBOR,
`some v` for one that decodes to `v`.  The rejection pattern is tried
first, then the reply pattern, exactly as in the source. -/
def parse_query_response (decoded : Option CborValue) : Except String (List Nat) :=
  match decoded with
  | none => Except.error "Invalid cbor data in the content of the message."
  | some (CborValue.map m) =>
    match rejectionOf m with
    | some (rc, rm) =>
      Except.ok (utf8Bytes ("Rejected (code " ++ toString rc ++ "): " ++ rm))
    | none =>
      match replyOf m with
      | some reply => Except.ok reply
      | none => Except.error "Invalid cbor content"
  | some _ => Except.error "Invalid cbor content"

/-- The shape picked by `send::exec` for a persisted artifact. -/
inductive ArtifactShape (I B : Type) where
  | single : I → ArtifactShape I B
  | envelopeList : List I → ArtifactShape I B
  | bundleList : List B → ArtifactShape I B

/-- The artifact-shape dispatch of `send::exec` (src/commands/send.rs:30-42).
The three `serde_json::from_str` attempts are external; the embedding takes
their outcomes as inputs (`none` = that shape failed to parse) and mirrors
the `if let Ok / else if let Ok / else` chain. -/
def decodeArtifact {I B : Type} (asIngress : Option I)
    (asIngressList : Option (List I)) (asBundleList : Option (List B)) :
    Except String (ArtifactShape I B) :=
  match asIngress with
  | some v => Except.ok (ArtifactShape.single v)
  | none =>
    match asIngressList with
    | some vs => Except.ok (ArtifactShape.envelopeList vs)
    | none =>
      match asBundleList with
      | some vs => Except.ok (ArtifactShape.bundleList vs)
      | none => Except.error "Invalid JSON content"

/-- The identity variants `get_identity` can construct: the closed set
{anonymous, secp256k1-derived, basic/ed25519-derived}.  `S` and `B` are the
payload types of the two external loaders. -/
inductive IdentityVariant (S B : Type) where
  | anonymous : IdentityVariant S B
  | secp256k1 : S → IdentityVariant S B
  | basic : B → IdentityVariant S B

/-- Outcome of `get_identity`: either a boxed identity, or the
`eprintln!` + `process::exit(1)` abort, modelled explicitly with the
message it prints. -/
inductive IdentityOutcome (S B : Type) where
  | identity : IdentityVariant S B → IdentityOutcome S B
  | exitFailure : String → IdentityOutcome S B

/-- `get_identity` (src/lib/mod.rs:129-143).  The two PEM loaders
`Secp256k1Identity::from_pem` and `BasicIdentity::from_pem` are external;
the embedding takes them as function parameters over the PEM text
(`none` = that loader returned `Err`). -/
def get_identity {S B : Type} (secpFromPem : String → Option S)
    (basicFromPem : String → Option B) (pem : String) : IdentityOutcome S B :=
  if pem = "" then IdentityOutcome.identity IdentityVariant.anonymous
  else
    match secpFromPem pem with
    | some i => IdentityOutcome.identity (IdentityVariant.secp256k1 i)
    | none =>
      match basicFromPem pem with
      | some i => IdentityOutcome.identity (IdentityVariant.basic i)
      | none => IdentityOutcome.exitFailure "Couldn't load identity from PEM"

/-- Principals (canister ids) as their byte representation
(`Principal::from_slice`). -/
abbrev Principal : Type := List Nat

/-- `GOVERNANCE_CANISTER_ID` from ic_nns_constants: NNS canister number 1,
eight big-endian bytes followed by the opaque-id marker `0x01 0x01`. -/
def governance_canister_id : Principal := [0, 0, 0, 0, 0, 0, 0, 1, 1, 1]

/-- `LEDGER_CANISTER_ID` from ic_nns_constants: NNS canister number 2. -/
def ledger_canister_id : Principal := [0, 0, 0, 0, 0, 0, 0, 2, 1, 1]

/-- `get_local_candid` (src/lib/mod.rs:48-58).  The two `include_bytes!`
payloads live outside `src/`; the `String::from_utf8` result on each is
taken as a parameter (`govDid`, `ledgerDid`).  Every other canister id gets
`Ok(Default::default())`, the empty string. -/
def get_local_candid (govDid ledgerDid : Except String String)
    (canister_id : Principal) : Except String String :=
  if canister_id = governance_canister_id then govDid
  else if canister_id = ledger_canister_id then ledgerDid
  else Except.ok ""

/-- Rust's `Result::unwrap_or_default` at type `String`. -/
def unwrapOrDefaultString (r : Except String String) : String :=
  match r with
  | Except.ok s => s
  | Except.error _ => ""

/-- The `candid::types::Function` record, over an abstract type `T` of
type-signature lists: only its `args` and `rets` fields are read. -/
structure CandidFunction (T : Type) where
  args : T
  rets : T

/-- The external candid library surface used by `get_candid_type` and
`get_idl_string`: parsing (`candid::pretty_parse`), type checking
(`check_prog`, returning the finished environment and the optional actor),
method lookup, the two decoders, and the rendering of decoded values and of
decode errors (`to_string` on each).  `Prog`, `Env`, `Actor`, `T`, `Args`
and `Err` are abstract. -/
structure CandidLib (Prog Env Actor T Args Err : Type) where
  prettyParse : String → Option Prog
  checkProg : Prog → Option (Env × Option Actor)
  getMethod : Env → Actor → String → Option (CandidFunction T)
  fromBytes : List Nat → Except Err Args
  fromBytesWithTypes : List Nat → Env → T → Except Err Args
  argsToString : Args → String
  errToString : Err → String

/-- `get_candid_type` (src/lib/mod.rs:86-92): parse the interface text,
check it, extract the actor (`actor?` on the `Option`), and look the method
up, any failure yielding `None`. -/
def get_candid_type {Prog Env Actor T Args Err : Type}
    (L : CandidLib Prog Env Actor T Args Err) (idl : String)
    (method_name : String) : Option (Env × CandidFunction T) :=
  match L.prettyParse idl with
  | none => none
  | some ast =>
    match L.checkProg ast with
    | none => none
    | some (env, actorOpt) =>
      match actorOpt with
      | none => none
      | some actor =>
        match L.getMethod env actor method_name with
        | none => none
        | some method => some (env, method)

/-- `get_idl_string` (src/lib/mod.rs:61-83): fetch the bundled interface
text (errors collapsed to `""` by `unwrap_or_default`), resolve the method
type, decode `blob` with types when one was found and without otherwise,
then render the value or the error as a string. -/
def get_idl_string {Prog Env Actor T Args Err : Type}
    (L : CandidLib Prog Env Actor T Args Err)
    (govDid ledgerDid : Except String String) (blob : List Nat)
    (canister_id : Principal) (method_name : String) (part : String) :
    Except String String :=
  let spec := unwrapOrDefaultString (get_local_candid govDid ledgerDid canister_id)
  let decoded :=
    match get_candid_type L spec method_name with
    | none => L.fromBytes blob
    | some (env, func) =>
      L.fromBytesWithTypes blob env (if part = "args" then func.args else func.rets)
  match decoded with
  | Except.ok args => Except.ok (L.argsToString args)
  | Except.error err => Except.error (L.errToString err)

/-- The fields of `signing::Ingress` that `send_ingress` reads: the call
kind (`"query"` or `"update"`), the optional request id (a hex string), and
the hex-encoded signed content.  The struct itself lives in
src/lib/signing.rs, which is not among the staged files; these fields are
modelled from the spec's Envelope, `{ call_kind, ..., request_id:
Option<RequestId> (present only for Update), content:
signed-and-CBOR-encoded bytes, ... }`. -/
structure Ingress where
  call_type : String
  request_id : Option String
  content : String

/-- `IngressResult` (src/lib/mod.rs:224-227), over an abstract request-id
type `R`. -/
inductive IngressResult (R : Type) where
  | requestId : R → IngressResult R
  | queryResponse : List Nat → IngressResult R

/-- The external collaborators of `send_ingress`, as functions of its
inputs: `parse` is `signing::Ingress::parse` (modelled from the spec: it
recovers `(sender, destination, method, argument text)` from the envelope;
its code, src/lib/signing.rs, is not among the staged files),
`transportCreate` is `ReqwestHttpReplicaV2Transport::create(get_ic_url())`,
`hexDecode` is `hex::decode`, `requestIdFromStr` is `RequestId::from_str`,
`query`/`call` are the transport contract, and `cborDecode` is the
`serde_cbor::from_slice` step inside `parse_query_response`. -/
structure SendEnv (R : Type) where
  parse : Ingress → Except String (String × Principal × String × String)
  transportCreate : Except String Unit
  hexDecode : String → Except String (List Nat)
  requestIdFromStr : String → Except String R
  query : Principal → List Nat → Except String (List Nat)
  call : Principal → List Nat → R → Except String Unit
  cborDecode : List Nat → Option CborValue

/-- `send_ingress` (src/lib/mod.rs:229-248).  `none` models a panic: the
only panic site is the `expect` on a missing `request_id` of a non-query
message; every fallible external call propagates its error through `?`. -/
def send_ingress {R : Type} (E : SendEnv R) (message : Ingress) :
    Option (Except String (IngressResult R)) :=
  match E.parse message with
  | Except.error e => some (Except.error e)
  | Except.ok (_, canister_id, _, _) =>
    match E.transportCreate with
    | Except.error e => some (Except.error e)
    | Except.ok _ =>
      match E.hexDecode message.content with
      | Except.error e => some (Except.error e)
      | Except.ok content =>
        if message.call_type = "query" then
          match E.query canister_id content with
          | Except.error e => some (Except.error e)
          | Except.ok raw =>
            match parse_query_response (E.cborDecode raw) with
            | Except.error e => some (Except.error e)
            | Except.ok response => some (Except.ok (IngressResult.queryResponse response))
        else
          match message.request_id with
          | none => none
          | some rid =>
            match E.requestIdFromStr rid with
            | Except.error e => some (Except.error e)
            | Except.ok request_id =>
              match E.call canister_id content request_id with
              | Except.error e => some (Except.error e)
              | Except.ok _ => some (Except.ok (IngressResult.requestId request_id))

/-- Rust's `u64::MAX`. -/
def u64Max : Nat := 18446744073709551615

/-- The error kinds `str::parse::<u64>` can produce on the inputs
`parse_icpts` feeds it. -/
inductive ParseIntError where
  | empty : ParseIntError
  | invalidDigit : ParseIntError
  | posOverflow : ParseIntError

/-- The `{:?}` (Debug) rendering of a `ParseIntError`. -/
def parseIntErrorDebug : ParseIntError → String
  | ParseIntError.empty => "ParseIntError { kind: Empty }"
  | ParseIntError.invalidDigit => "ParseIntError { kind: InvalidDigit }"
  | ParseIntError.posOverflow => "ParseIntError { kind: PosOverflow }"

/-- Digit loop of `u64::from_str`: each byte must be an ASCII digit and the
accumulator may never exceed `u64::MAX`. -/
def parseU64Digits (acc : Nat) : List Nat → Except ParseIntError Nat
  | [] => Except.ok acc
  | b :: rest =>
    if 48 ≤ b ∧ b ≤ 57 then
      if acc * 10 + (b - 48) > u64Max then Except.error ParseIntError.posOverflow
      else parseU64Digits (acc * 10 + (b - 48)) rest
    else Except.error ParseIntError.invalidDigit

/-- `str::parse::<u64>` over the UTF-8 bytes of the string: empty input is
`Empty`; a lone `+` is `InvalidDigit`; a leading `+` is stripped (`-` is not
a sign for an unsigned type and fails as a non-digit); then the digit
loop runs. -/
def parseU64 : List Nat → Except ParseIntError Nat
  | [] => Except.error ParseIntError.empty
  | b :: rest =>
    if b = 43 then
      match rest with
      | [] => Except.error ParseIntError.invalidDigit
      | _ => parseU64Digits 0 rest
    else parseU64Digits 0 (b :: rest)

/-- The `parse` closure of `parse_icpts` (src/commands/transfer.rs:58-61):
`s.parse::<u64>().map_err(|err| format!("Couldn't parse as u64: {:?}", err))`. -/
def parseAsU64 (bs : List Nat) : Except String Nat :=
  match parseU64 bs with
  | Except.ok n => Except.ok n
  | Except.error err => Except.error ("Couldn't parse as u64: " ++ parseIntErrorDebug err)

/-- Rust's `str::split(sep)` at the byte level (the separator `.` is ASCII,
so byte-level and char-level splitting of UTF-8 text coincide): `""` yields
`[""]`, separators at the ends yield empty fragments. -/
def splitOnByte (sep : Nat) : List Nat → List (List Nat)
  | [] => [[]]
  | b :: rest =>
    if b = sep then [] :: splitOnByte sep rest
    else
      match splitOnByte sep rest with
      | [] => [[b]]
      | h :: t => (b :: h) :: t

/-- Rust's `str::is_char_boundary` on UTF-8 bytes: index 0 and the length
are boundaries, an index past the end is not, and an inner index is one
exactly when the byte there is not a continuation byte. -/
def isCharBoundaryAt (bs : List Nat) (i : Nat) : Bool :=
  if i = 0 then true
  else
    match bs.get? i with
    | none => i == bs.length
    | some b => b < 128 || 192 ≤ b

/-- `ledger_canister::Tokens` (named `ICPTs` in the vendored ledger): the
amount in e8s. -/
structure Tokens where
  e8s : Nat
deriving DecidableEq

/-- External `ledger_canister::Tokens::new` contract: the checked
computation `tokens * 10^8 + e8s` in `u64`, failing with "u64 overflow"
when either the multiplication or the addition leaves `u64` range. -/
def Tokens.new (tokens e8s : Nat) : Except String Tokens :=
  if tokens * 100000000 > u64Max then Except.error "u64 overflow"
  else if tokens * 100000000 + e8s > u64Max then Except.error "u64 overflow"
  else Except.ok ⟨tokens * 100000000 + e8s⟩

/-- `parse_icpts` (src/commands/transfer.rs:57-74) over the UTF-8 bytes of
`amount`.  One fragment: whole ICPs only.  Two fragments: the fractional
part is right-padded with `'0'` (byte 48) to at least 8 bytes, the byte
slice `&e8s[..8]` is taken — `none` models the panic when byte 8 of the
padded string is not a character boundary — and both parts are parsed.
Anything else (two or more `'.'`) is the format error carrying the input. -/
def parse_icpts (amount : String) : Option (Except String Tokens) :=
  match splitOnByte 46 (utf8Bytes amount) with
  | [icpts] => some ((parseAsU64 icpts).bind fun i => Tokens.new i 0)
  | [icpts, e8s] =>
    let padded := e8s ++ List.replicate (8 - e8s.length) 48
    if isCharBoundaryAt padded 8 then
      some ((parseAsU64 icpts).bind fun i =>
        (parseAsU64 (padded.take 8)).bind fun f => Tokens.new i f)
    else none
  | _ => some (Except.error ("Can't parse amount " ++ amount))

/-! ## Theorems -/

/-- C2: a CBOR map with an integer `reject_code` entry `c` and a text
`reject_message` entry `m` makes `parse_query_response` return `Ok` of the
UTF-8 bytes of `"Rejected (code c): m"`, the code and message verbatim; no
assumption is made about a `reply` entry, so the rejection branch takes
precedence over the reply branch. -/
theorem c2_rejection_formatted (m : List (CborValue × CborValue)) (c : Int) (msg : String)
    (hc : lookupText m "reject_code" = some (CborValue.integer c))
    (hm : lookupText m "reject_message" = some (CborValue.text msg)) :
    parse_query_response (some (CborValue.map m)) =
      Except.ok (utf8Bytes ("Rejected (code " ++ toString c ++ "): " ++ msg)) := by
  simp only [parse_query_response, rejectionOf, hc, hm]

/-- C2 witness: the rejection branch wins even when a well-formed `reply`
entry is also present, at code 3 and message "bad". -/
theorem c2_rejection_formatted_witness :
    parse_query_response (some (CborValue.map
      [(CborValue.text "reject_code", CborValue.integer 3),
       (CborValue.text "reject_message", CborValue.text "bad"),
       (CborValue.text "reply", CborValue.map [(CborValue.text "arg", CborValue.bytes [7])])])) =
      Except.ok (utf8Bytes "Rejected (code 3): bad") := by
  rw [c2_rejection_formatted
    [(CborValue.text "reject_code", CborValue.integer 3),
     (CborValue.text "reject_message", CborValue.text "bad"),
     (CborValue.text "reply", CborValue.map [(CborValue.text "arg", CborValue.bytes [7])])]
    3 "bad" rfl rfl]
  decide

/-- C1 counterexample: a CBOR map whose `reply` entry is a map with an
`arg` byte string `[1, 2, 3]` (as `replyOf` certifies) on which
`parse_query_response` does not return `Ok [1, 2, 3]`: the map also carries
a rejection pair, and the rejection branch is tried first, so the result is
the formatted rejection string instead of the inner argument bytes. -/
theorem c1_counterexample :
    replyOf [(CborValue.text "reject_code", CborValue.integer 5),
             (CborValue.text "reject_message", CborValue.text "no"),
             (CborValue.text "reply",
              CborValue.map [(CborValue.text "arg", CborValue.bytes [1, 2, 3])])] =
        some [1, 2, 3] ∧
    parse_query_response (some (CborValue.map
      [(CborValue.text "reject_code", CborValue.integer 5),
       (CborValue.text "reject_message", CborValue.text "no"),
       (CborValue.text "reply",
        CborValue.map [(CborValue.text "arg", CborValue.bytes [1, 2, 3])])])) =
        Except.ok (utf8Bytes "Rejected (code 5): no") ∧
    utf8Bytes "Rejected (code 5): no" ≠ [1, 2, 3] := by
  refine ⟨by decide, by decide, by decide⟩

/-- C1 (amended): a CBOR map whose `reply` entry is a map with an `arg`
byte string `b`, and which does not also match the rejection pattern (an
integer `reject_code` together with a text `reject_message`), makes
`parse_query_response` return `Ok b`, exactly the inner argument bytes. -/
theorem c1_reply_arg_extracted (m m2 : List (CborValue × CborValue)) (b : List Nat)
    (hreply : lookupText m "reply" = some (CborValue.map m2))
    (harg : lookupText m2 "arg" = some (CborValue.bytes b))
    (hnorej : rejectionOf m = none) :
    parse_query_response (some (CborValue.map m)) = Except.ok b := by
  simp only [parse_query_response, replyOf, hnorej, hreply, harg]

/-- C1 witness: a pure reply map yields exactly its argument bytes. -/
theorem c1_reply_arg_extracted_witness :
    parse_query_response (some (CborValue.map
      [(CborValue.text "status", CborValue.text "replied"),
       (CborValue.text "reply",
        CborValue.map [(CborValue.text "arg", CborValue.bytes [42, 0, 42])])])) =
      Except.ok [42, 0, 42] :=
  c1_reply_arg_extracted
    [(CborValue.text "status", CborValue.text "replied"),
     (CborValue.text "reply",
      CborValue.map [(CborValue.text "arg", CborValue.bytes [42, 0, 42])])]
    [(CborValue.text "arg", CborValue.bytes [42, 0, 42])]
    [42, 0, 42] rfl rfl rfl

/-- Whether a decoded CBOR value matches either shape `parse_query_response`
accepts: a map with the rejection pattern or with the reply pattern. -/
def matchesResponseShape (v : CborValue) : Bool :=
  match v with
  | CborValue.map m => (rejectionOf m).isSome || (replyOf m).isSome
  | _ => false

/-- C3: an input that is not valid CBOR (the decode step yields nothing)
makes `parse_query_response` return the invalid-cbor-data error, and an
input decoding to a value matching neither the rejection nor the reply
shape makes it return the invalid-content error; both are `Err` values,
and the function is total (never panics) by construction. -/
theorem c3_malformed_error (decoded : Option CborValue) :
    (decoded = none →
      parse_query_response decoded =
        Except.error "Invalid cbor data in the content of the message.") ∧
    (∀ v, decoded = some v → matchesResponseShape v = false →
      parse_query_response decoded = Except.error "Invalid cbor content") := by
  constructor
  · intro h
    subst h
    rfl
  · intro v h hshape
    subst h
    cases v with
    | map m =>
      simp only [matchesResponseShape, Bool.or_eq_false_iff] at hshape
      obtain ⟨h1, h2⟩ := hshape
      cases hrej : rejectionOf m with
      | some p => rw [hrej] at h1; simp at h1
      | none =>
        cases hrep : replyOf m with
        | some r => rw [hrep] at h2; simp at h2
        | none => simp only [parse_query_response, hrej, hrep]
    | integer n => rfl
    | bytes bs => rfl
    | text t => rfl
    | other => rfl

/-- C3 witness: the two error messages at concrete inputs — an undecodable
byte string, and a map carrying neither shape. -/
theorem c3_malformed_error_witness :
    parse_query_response none =
      Except.error "Invalid cbor data in the content of the message." ∧
    parse_query_response (some (CborValue.map
      [(CborValue.text "status", CborValue.text "processing")])) =
      Except.error "Invalid cbor content" :=
  ⟨(c3_malformed_error none).1 rfl,
   (c3_malformed_error (some (CborValue.map
      [(CborValue.text "status", CborValue.text "processing")]))).2 _ rfl (by decide)⟩

/-- C4: the artifact-shape dispatch of `send::exec` picks the first JSON
shape that parses — a single envelope before a list of envelopes before a
list of bundles — and fails with the invalid-artifact error exactly when
none of the three shapes parses. -/
theorem c4_artifact_shape_order {I B : Type} (asIngress : Option I)
    (asIngressList : Option (List I)) (asBundleList : Option (List B)) :
    (decodeArtifact asIngress asIngressList asBundleList =
        Except.error "Invalid JSON content" ↔
      asIngress = none ∧ asIngressList = none ∧ asBundleList = none) ∧
    (∀ v, asIngress = some v →
      decodeArtifact asIngress asIngressList asBundleList =
        Except.ok (ArtifactShape.single v)) ∧
    (∀ vs, asIngress = none → asIngressList = some vs →
      decodeArtifact asIngress asIngressList asBundleList =
        Except.ok (ArtifactShape.envelopeList vs)) ∧
    (∀ vs, asIngress = none → asIngressList = none → asBundleList = some vs →
      decodeArtifact asIngress asIngressList asBundleList =
        Except.ok (ArtifactShape.bundleList vs)) := by
  refine ⟨?_, ?_, ?_, ?_⟩
  · constructor
    · intro h
      cases asIngress with
      | some v => simp [decodeArtifact] at h
      | none =>
        cases asIngressList with
        | some vs => simp [decodeArtifact] at h
        | none =>
          cases asBundleList with
          | some vs => simp [decodeArtifact] at h
          | none => exact ⟨rfl, rfl, rfl⟩
    · rintro ⟨h1, h2, h3⟩
      subst h1; subst h2; subst h3
      rfl
  · intro v h
    subst h
    rfl
  · intro vs h1 h2
    subst h1; subst h2
    rfl
  · intro vs h1 h2 h3
    subst h1; subst h2; subst h3
    rfl

/-- C4 witness: with all three shapes available the single envelope wins;
with none available the invalid-artifact error is returned (shapes
instantiated at `I = B = Nat`). -/
theorem c4_artifact_shape_order_witness :
    decodeArtifact (I := Nat) (B := Nat) (some 7) (some [1, 2]) (some [3]) =
      Except.ok (ArtifactShape.single 7) ∧
    decodeArtifact (I := Nat) (B := Nat) none none none =
      Except.error "Invalid JSON content" :=
  ⟨(c4_artifact_shape_order (some 7) (some [1, 2]) (some [3])).2.1 7 rfl,
   (c4_artifact_shape_order (I := Nat) (B := Nat) none none none).1.2 ⟨rfl, rfl, rfl⟩⟩

/-- C8: `get_identity` is a pure function of the PEM text and the two
loaders into the closed variant set: the empty text yields the anonymous
identity, otherwise the secp256k1 loader is tried, then the basic/ed25519
loader, and when both fail the outcome is the explicit abort carrying the
unrecognized-key message — never a silent fallback: the anonymous identity
is produced exactly for the empty input. -/
theorem c8_get_identity_dispatch {S B : Type} (secpFromPem : String → Option S)
    (basicFromPem : String → Option B) (pem : String) :
    (pem = "" → get_identity secpFromPem basicFromPem pem =
      IdentityOutcome.identity IdentityVariant.anonymous) ∧
    (∀ i, pem ≠ "" → secpFromPem pem = some i →
      get_identity secpFromPem basicFromPem pem =
        IdentityOutcome.identity (IdentityVariant.secp256k1 i)) ∧
    (∀ i, pem ≠ "" → secpFromPem pem = none → basicFromPem pem = some i →
      get_identity secpFromPem basicFromPem pem =
        IdentityOutcome.identity (IdentityVariant.basic i)) ∧
    (pem ≠ "" → secpFromPem pem = none → basicFromPem pem = none →
      get_identity secpFromPem basicFromPem pem =
        IdentityOutcome.exitFailure "Couldn't load identity from PEM") ∧
    (get_identity secpFromPem basicFromPem pem =
        IdentityOutcome.identity IdentityVariant.anonymous ↔ pem = "") := by
  refine ⟨?_, ?_, ?_, ?_, ?_⟩
  · intro h
    simp [get_identity, h]
  · intro i h hs
    simp [get_identity, h, hs]
  · intro i h hs hb
    simp [get_identity, h, hs, hb]
  · intro h hs hb
    simp [get_identity, h, hs, hb]
  · constructor
    · intro h
      by_contra hne
      rw [get_identity, if_neg hne] at h
      cases hs : secpFromPem pem with
      | some i => rw [hs] at h; exact IdentityOutcome.noConfusion h (fun h' => IdentityVariant.noConfusion h')
      | none =>
        rw [hs] at h
        cases hb : basicFromPem pem with
        | some i => rw [hb] at h; exact IdentityOutcome.noConfusion h (fun h' => IdentityVariant.noConfusion h')
        | none => rw [hb] at h; exact IdentityOutcome.noConfusion h
    · intro h
      simp [get_identity, h]

/-- C8 witness: at loaders that both fail, a nonempty PEM aborts with the
explicit message, and the empty PEM is exactly the anonymous case. -/
theorem c8_get_identity_dispatch_witness :
    get_identity (fun _ => (none : Option Unit)) (fun _ => (none : Option Unit)) "k" =
      IdentityOutcome.exitFailure "Couldn't load identity from PEM" ∧
    (get_identity (fun _ => (none : Option Unit)) (fun _ => (none : Option Unit)) "" =
      IdentityOutcome.identity IdentityVariant.anonymous) :=
  ⟨(c8_get_identity_dispatch (fun _ => (none : Option Unit)) (fun _ => (none : Option Unit))
      "k").2.2.2.1 (by decide) rfl rfl,
   (c8_get_identity_dispatch (fun _ => (none : Option Unit)) (fun _ => (none : Option Unit))
      "").1 rfl⟩

/-- C5: for a destination that is neither the governance nor the ledger
canister id, `get_local_candid` returns the empty interface description
without error, and — the empty description resolving no method type —
`get_idl_string` takes the untyped path: it returns exactly the rendering
of the hint-free decode of the bytes, so absence of an interface
description is never an error. -/
theorem c5_decoder_fallback {Prog Env Actor T Args Err : Type}
    (L : CandidLib Prog Env Actor T Args Err)
    (govDid ledgerDid : Except String String) (blob : List Nat)
    (canister_id : Principal) (method_name part : String)
    (hg : canister_id ≠ governance_canister_id)
    (hl : canister_id ≠ ledger_canister_id)
    (hnone : get_candid_type L "" method_name = none) :
    get_local_candid govDid ledgerDid canister_id = Except.ok "" ∧
    get_idl_string L govDid ledgerDid blob canister_id method_name part =
      (match L.fromBytes blob with
       | Except.ok args => Except.ok (L.argsToString args)
       | Except.error err => Except.error (L.errToString err)) := by
  have hloc : get_local_candid govDid ledgerDid canister_id = Except.ok "" := by
    simp [get_local_candid, hg, hl]
  refine ⟨hloc, ?_⟩
  simp only [get_idl_string, hloc, unwrapOrDefaultString, hnone]

/-- C5 witness: a backend over unit types whose hint-free decoder renders
`"(42)"`, at a destination that is neither known canister id. -/
theorem c5_decoder_fallback_witness :
    get_idl_string
      { prettyParse := fun _ => none, checkProg := fun _ => none,
        getMethod := fun _ _ _ => none, fromBytes := fun _ => Except.ok "(42)",
        fromBytesWithTypes := fun _ _ _ => Except.error (),
        argsToString := fun s => s, errToString := fun _ => "err"
        : CandidLib Unit Unit Unit Unit String Unit }
      (Except.ok "gov") (Except.ok "ledger") [68, 73, 68, 76] [9, 9] "balance" "rets" =
      Except.ok "(42)" := by
  rw [(c5_decoder_fallback
      { prettyParse := fun _ => none, checkProg := fun _ => none,
        getMethod := fun _ _ _ => none, fromBytes := fun _ => Except.ok "(42)",
        fromBytesWithTypes := fun _ _ _ => Except.error (),
        argsToString := fun s => s, errToString := fun _ => "err"
        : CandidLib Unit Unit Unit Unit String Unit }
      (Except.ok "gov") (Except.ok "ledger") [68, 73, 68, 76] [9, 9] "balance" "rets"
      (by decide) (by decide) rfl).2]

/-- C6: `get_idl_string` is total over every backend behaviour, byte
string, canister id, method name and part selector: its result is always
either `Ok` of the rendering of some successfully decoded value or `Err`
of the rendered decode error — a failure is returned as a renderable
string, never a panic (the embedding is a total function and the source
has no panicking operation: the inner `get_local_candid` error is absorbed
by `unwrap_or_default`). -/
theorem c6_get_idl_string_total {Prog Env Actor T Args Err : Type}
    (L : CandidLib Prog Env Actor T Args Err)
    (govDid ledgerDid : Except String String) (blob : List Nat)
    (canister_id : Principal) (method_name part : String) :
    (∃ args, get_idl_string L govDid ledgerDid blob canister_id method_name part =
        Except.ok (L.argsToString args)) ∨
    (∃ err, get_idl_string L govDid ledgerDid blob canister_id method_name part =
        Except.error (L.errToString err)) := by
  rw [get_idl_string]
  cases h : (match get_candid_type L
      (unwrapOrDefaultString (get_local_candid govDid ledgerDid canister_id)) method_name with
    | none => L.fromBytes blob
    | some (env, func) =>
      L.fromBytesWithTypes blob env (if part = "args" then func.args else func.rets)) with
  | ok args => exact Or.inl ⟨args, rfl⟩
  | error err => exact Or.inr ⟨err, rfl⟩

/-- C7: once the message parses, the transport is created and the hex
content decodes, `send_ingress` dispatches on the call kind: a `"query"`
message is submitted through `transport.query(destination, bytes)` and its
raw answer runs through `parse_query_response`, while any other call kind
is submitted through `transport.call(destination, bytes, request_id)` with
the request id stored in the message, which is also the returned outcome. -/
theorem c7_send_ingress_dispatch {R : Type} (E : SendEnv R) (message : Ingress)
    (sender : String) (canister_id : Principal) (method args : String) (bytes : List Nat)
    (hparse : E.parse message = Except.ok (sender, canister_id, method, args))
    (htrans : E.transportCreate = Except.ok ())
    (hhex : E.hexDecode message.content = Except.ok bytes) :
    (message.call_type = "query" →
      send_ingress E message = some
        (((E.query canister_id bytes).bind fun raw =>
            parse_query_response (E.cborDecode raw)).map IngressResult.queryResponse)) ∧
    (message.call_type ≠ "query" →
      ∀ rid request_id, message.request_id = some rid →
        E.requestIdFromStr rid = Except.ok request_id →
        send_ingress E message = some
          ((E.call canister_id bytes request_id).map fun _ =>
            IngressResult.requestId request_id)) := by
  constructor
  · intro hq
    simp only [send_ingress, hparse, htrans, hhex, if_pos hq]
    cases hquery : E.query canister_id bytes with
    | error e => simp [Except.bind, Except.map]
    | ok raw =>
      simp only [Except.bind, Except.map]
      cases parse_query_response (E.cborDecode raw) <;> rfl
  · intro hq rid request_id hrid hfrom
    simp only [send_ingress, hparse, htrans, hhex, if_neg hq, hrid, hfrom]
    cases hcall : E.call canister_id bytes request_id with
    | error e => simp [Except.map]
    | ok u => simp [Except.map]

/-- C9: a message whose call kind is not `"query"` and whose `request_id`
field is absent drives `send_ingress` into the `expect` on the missing
request id: the embedding returns `none` (a panic), not an `Err` value, so
the update path is total only when every non-query envelope carries a
request id. -/
theorem c9_send_ingress_panics_without_request_id {R : Type} (E : SendEnv R)
    (message : Ingress) (sender : String) (canister_id : Principal)
    (method args : String) (bytes : List Nat)
    (hparse : E.parse message = Except.ok (sender, canister_id, method, args))
    (htrans : E.transportCreate = Except.ok ())
    (hhex : E.hexDecode message.content = Except.ok bytes)
    (hq : message.call_type ≠ "query")
    (hrid : message.request_id = none) :
    send_ingress E message = none := by
  simp only [send_ingress, hparse, htrans, hhex, if_neg hq, hrid]


/-- Splitting a byte list free of the separator yields the one fragment. -/
theorem splitOnByte_no_sep (sep : Nat) (bs : List Nat) (h : sep ∉ bs) :
    splitOnByte sep bs = [bs] := by
  induction bs with
  | nil => rfl
  | cons b rest ih =>
    have hb : b ≠ sep := fun hc => h (hc ▸ List.mem_cons_self b rest)
    have hrest : sep ∉ rest := fun hc => h (List.mem_cons_of_mem b hc)
    rw [splitOnByte, if_neg hb, ih hrest]

/-- Splitting past a first separator not occurring in the head fragment
peels that fragment off. -/
theorem splitOnByte_append_sep (sep : Nat) (i rest : List Nat) (h : sep ∉ i) :
    splitOnByte sep (i ++ sep :: rest) = i :: splitOnByte sep rest := by
  induction i with
  | nil => simp [splitOnByte]
  | cons b i2 ih =>
    have hb : b ≠ sep := fun hc => h (hc ▸ List.mem_cons_self b i2)
    have hi2 : sep ∉ i2 := fun hc => h (List.mem_cons_of_mem b hc)
    rw [List.cons_append, splitOnByte, if_neg hb, ih hi2]

/-- The number of fragments is one more than the number of separators. -/
theorem splitOnByte_length (sep : Nat) (bs : List Nat) :
    (splitOnByte sep bs).length = bs.count sep + 1 := by
  induction bs with
  | nil => rfl
  | cons b rest ih =>
    rw [splitOnByte]
    by_cases hb : b = sep
    · rw [if_pos hb, List.length_cons, ih, hb, List.count_cons_self]
    · rw [if_neg hb]
      cases hsp : splitOnByte sep rest with
      | nil => rw [hsp] at ih; simp at ih
      | cons hd tl =>
        rw [hsp] at ih
        simp only [List.length_cons] at ih ⊢
        rw [ih, List.count_cons_of_ne (fun hc => hb hc.symm)]

/-- C10 counterexample: the claim accepts every string "i.f" whose integer
part parses as u64, but `parse_icpts "1.x"` — whose integer part "1" does
parse — is rejected, because the padded-and-truncated fractional part must
itself parse as u64 and "x0000000" does not. -/
theorem c10_counterexample :
    parseAsU64 (utf8Bytes "1") = Except.ok 1 ∧
    parse_icpts "1.x" =
      some (Except.error "Couldn't parse as u64: ParseIntError { kind: InvalidDigit }") :=
  ⟨by decide, by decide⟩

/-- C10 (amended): `parse_icpts` splits the amount on `'.'`.  One fragment
is parsed as u64 and becomes whole ICPs (`Tokens::new i 0`).  With two
fragments, the fractional part is right-padded with zeros to at least 8
bytes and truncated to its first 8 bytes without rounding; the result is
`Tokens::new` of the parsed integer and the parsed truncated fraction, so
the string is accepted exactly when both parts parse as u64 and the
combined e8s amount fits in u64 (when byte 8 of the padded fraction falls
inside a multi-byte character the byte slice panics instead).  Any amount
with more than one `'.'` is an error. -/
theorem c10_parse_icpts_amended (amount : String) :
    (46 ∉ utf8Bytes amount →
      parse_icpts amount =
        some ((parseAsU64 (utf8Bytes amount)).bind fun i => Tokens.new i 0)) ∧
    (∀ i f, utf8Bytes amount = i ++ 46 :: f → 46 ∉ i → 46 ∉ f →
      (isCharBoundaryAt (f ++ List.replicate (8 - f.length) 48) 8 = true →
        parse_icpts amount =
          some ((parseAsU64 i).bind fun vi =>
            (parseAsU64 ((f ++ List.replicate (8 - f.length) 48).take 8)).bind fun vf =>
              Tokens.new vi vf)) ∧
      (isCharBoundaryAt (f ++ List.replicate (8 - f.length) 48) 8 = false →
        parse_icpts amount = none)) ∧
    (2 ≤ (utf8Bytes amount).count 46 →
      parse_icpts amount = some (Except.error ("Can't parse amount " ++ amount))) := by
  refine ⟨?_, ?_, ?_⟩
  · intro h
    rw [parse_icpts, splitOnByte_no_sep 46 _ h]
  · intro i f heq hi hf
    constructor
    · intro hbound
      rw [parse_icpts, heq, splitOnByte_append_sep 46 i f hi, splitOnByte_no_sep 46 f hf]
      simp only [if_pos hbound]
    · intro hbound
      rw [parse_icpts, heq, splitOnByte_append_sep 46 i f hi, splitOnByte_no_sep 46 f hf]
      simp [hbound]
  · intro hcount
    have hlen : 3 ≤ (splitOnByte 46 (utf8Bytes amount)).length := by
      rw [splitOnByte_length]
      omega
    rw [parse_icpts]
    cases hsp : splitOnByte 46 (utf8Bytes amount) with
    | nil => rfl
    | cons a t =>
      cases t with
      | nil => rw [hsp] at hlen; simp at hlen
      | cons b t2 =>
        cases t2 with
        | nil => rw [hsp] at hlen; simp at hlen
        | cons c t3 => rfl

/-- C10 witness: "1.123456789" is accepted as 1 ICP and 12345678 e8s (the
fraction truncated, not rounded, to 8 digits), and "1.2.3" — more than one
dot — is the format error. -/
theorem c10_parse_icpts_amended_witness :
    parse_icpts "1.123456789" = some (Except.ok ⟨112345678⟩) ∧
    parse_icpts "1.2.3" = some (Except.error "Can't parse amount 1.2.3") := by
  constructor
  · have h := ((c10_parse_icpts_amended "1.123456789").2.1 (utf8Bytes "1")
      (utf8Bytes "123456789") (by decide) (by decide) (by decide)).1 (by decide)
    rw [h]
    decide
  · have h := (c10_parse_icpts_amended "1.2.3").2.2 (by decide)
    rw [h]
    decide

/-- A concrete collaborator environment (request ids as `Nat`): parsing,
transport creation and hex decoding succeed, a query's raw answer decodes
to a reply map carrying the bytes `[5]`, and update submission succeeds. -/
def sampleSendEnv : SendEnv Nat where
  parse := fun _ => Except.ok ("sender", [9, 9], "balance", "(record)")
  transportCreate := Except.ok ()
  hexDecode := fun _ => Except.ok [1, 2]
  requestIdFromStr := fun _ => Except.ok 7
  query := fun _ _ => Except.ok [0]
  call := fun _ _ _ => Except.ok ()
  cborDecode := fun _ => some (CborValue.map
    [(CborValue.text "reply", CborValue.map [(CborValue.text "arg", CborValue.bytes [5])])])

/-- C7 witness: in the sample environment a query message comes back as the
parsed query response and an update message comes back as its request id. -/
theorem c7_send_ingress_dispatch_witness :
    send_ingress sampleSendEnv { call_type := "query", request_id := none, content := "0102" } =
      some (Except.ok (IngressResult.queryResponse [5])) ∧
    send_ingress sampleSendEnv { call_type := "update", request_id := some "aa", content := "0102" } =
      some (Except.ok (IngressResult.requestId 7)) := by
  constructor
  · have h := (c7_send_ingress_dispatch sampleSendEnv
      { call_type := "query", request_id := none, content := "0102" }
      "sender" [9, 9] "balance" "(record)" [1, 2] rfl rfl rfl).1 rfl
    rw [h]
    rfl
  · have h := (c7_send_ingress_dispatch sampleSendEnv
      { call_type := "update", request_id := some "aa", content := "0102" }
      "sender" [9, 9] "balance" "(record)" [1, 2] rfl rfl rfl).2 (by decide) "aa" 7 rfl rfl
    rw [h]
    rfl

/-- C9 witness: in the sample environment an update message with no
request id reaches the `expect` and panics. -/
theorem c9_send_ingress_panics_witness :
    send_ingress sampleSendEnv { call_type := "update", request_id := none, content := "0102" } =
      none :=
  c9_send_ingress_panics_without_request_id sampleSendEnv
    { call_type := "update", request_id := none, content := "0102" }
    "sender" [9, 9] "balance" "(record)" [1, 2] rfl rfl rfl (by decide) rfl
